import Mathlib

/-!
Verification of the Hyperliquid Markets Mini Terminal real-time client.

Shallow embedding of the subscription registry, message router, reconnection
controller and store reconcilers from:
- src/services/hyperliquid-api.ts  (class HyperliquidAPI)
- src/store/trading-store.ts       (addTrade / addCandle actions)
- the declared wire types in types/hyperliquid.ts

Callbacks are modelled as opaque numeric identifiers; an invocation is the
pair (callback id, payload delivered).  The JS Map of subscriptions is an
insertion-ordered association list with Map.set / Map.get / Map.delete
semantics.  Outbound WebSocket frames are collected into explicit lists.
-/

namespace HL

/-- Candle record, from the Candle interface in types/hyperliquid.ts
(fields T c h l n o s t v; note there is no interval field). -/
structure Candle where
  T : Nat
  c : String
  h : String
  l : String
  n : Nat
  o : String
  s : String
  t : Nat
  v : String
deriving DecidableEq, Repr

/-- Trade record, from the Trade interface in types/hyperliquid.ts. -/
structure Trade where
  coin : String
  side : String
  px : String
  sz : String
  time : Nat
  hash : String
deriving DecidableEq, Repr

/-- Inbound trade payload as read by handleTradeUpdate
(fields coin side px sz time hash tid users). -/
structure TradePayload where
  coin : String
  side : String
  px : String
  sz : String
  time : Nat
  hash : String
  tid : Nat
  users : List String
deriving DecidableEq, Repr

/-- Inbound candle payload as read by handleCandleUpdate.  The handler reads
a dynamic field data.interval (the payload is typed any in the source); the
declared Candle wire type carries no such field, so a type-conforming payload
has interval = none. -/
structure CandlePayload where
  T : Nat
  c : String
  h : String
  l : String
  o : String
  s : String
  t : Nat
  v : String
  n : Nat
  interval : Option String
deriving DecidableEq, Repr

/-- Price level of the l2Book payload. -/
structure BookLevel where
  px : String
  sz : String
  n : Nat
deriving DecidableEq, Repr

/-- Inbound order-book payload as read by handleOrderBookUpdate. -/
structure BookPayload where
  coin : String
  bids : List BookLevel
  asks : List BookLevel
  time : Nat
deriving DecidableEq, Repr

/-- Subscription body of an outbound frame, from the SubscriptionRequest
interface in types/hyperliquid.ts. -/
structure Subscription where
  type : String
  coin : Option String
  user : Option String
  interval : Option String
deriving DecidableEq, Repr

/-- Outbound WebSocket frame.  In the source the method literal type admits
only the value "subscribe". -/
structure SubscriptionRequest where
  method : String
  subscription : Subscription
deriving DecidableEq, Repr

/-- Subscription registry: the JS Map of string keys to callbacks, with
callbacks as opaque ids, kept in insertion order. -/
abbrev Registry := List (String × Nat)

/-- JS Map.get: value of the first (unique) entry with the given key. -/
def mapGet? (m : Registry) (k : String) : Option Nat :=
  (m.find? (fun p => p.1 == k)).map (fun p => p.2)

/-- JS Map.set: overwrite in place if the key is present, else append. -/
def mapSet (m : Registry) (k : String) (v : Nat) : Registry :=
  if m.any (fun p => p.1 == k) then
    m.map (fun p => if p.1 == k then (k, v) else p)
  else
    m ++ [(k, v)]

/-- JS Map.delete: drop the entry with the given key, no-op when absent. -/
def mapDelete (m : Registry) (k : String) : Registry :=
  m.filter (fun p => !(p.1 == k))

/-! Store reconcilers, from src/store/trading-store.ts. -/

/-- addTrade action: trades = [trade, ...state.trades.slice(0, 99)]. -/
def addTrade (trade : Trade) (trades : List Trade) : List Trade :=
  trade :: trades.take 99

/-- Comparator of the candle sort: (a, b) => a.t - b.t, i.e. ascending by t. -/
def candleLe (a b : Candle) : Bool :=
  a.t ≤ b.t

/-- addCandle action: look up an existing candle with the same t
(findIndex on c.t === candle.t); replace it in place when found, else append
and re-sort ascending by t with the stable JS Array.sort. -/
def addCandle (candle : Candle) (candles : List Candle) : List Candle :=
  match candles.findIdx? (fun c => c.t == candle.t) with
  | some i => candles.set i candle
  | none => (candles ++ [candle]).mergeSort candleLe

/-- Sequential insertion of a batch of trades, one addTrade per element
(the consumers call addTrade per received trade). -/
def insertAllTrades (ts : List Trade) (buf : List Trade) : List Trade :=
  ts.foldl (fun acc t => addTrade t acc) buf

/-! Subscription layer of src/services/hyperliquid-api.ts.  The subscribe
and unsubscribe methods are modelled on the path where the socket is OPEN,
so every frame handed to sendSubscription is transmitted; each operation
returns the updated registry together with the frames sent. -/

/-- Supported candle intervals, the list checked by fetchCandles and
subscribeToCandles. -/
def supportedIntervals : List String :=
  ["1m", "3m", "5m", "15m", "30m", "1h", "2h", "4h", "8h", "12h",
   "1d", "3d", "1w", "1M"]

/-- subscribeToCandles: reject an unsupported interval (early return, nothing
registered, nothing sent); otherwise register under candle:coin:interval and
send the subscribe frame. -/
def subscribeToCandles (coin interval : String) (cb : Nat)
    (subscriptions : Registry) : Registry × List SubscriptionRequest :=
  if supportedIntervals.contains interval then
    (mapSet subscriptions ("candle:" ++ coin ++ ":" ++ interval) cb,
     [⟨"subscribe", ⟨"candle", some coin, none, some interval⟩⟩])
  else
    (subscriptions, [])

/-- subscribeToTrades: register under trades:coin and send the frame. -/
def subscribeToTrades (coin : String) (cb : Nat)
    (subscriptions : Registry) : Registry × List SubscriptionRequest :=
  (mapSet subscriptions ("trades:" ++ coin) cb,
   [⟨"subscribe", ⟨"trades", some coin, none, none⟩⟩])

/-- subscribeToOrderBook: register under l2Book:coin and send the frame. -/
def subscribeToOrderBook (coin : String) (cb : Nat)
    (subscriptions : Registry) : Registry × List SubscriptionRequest :=
  (mapSet subscriptions ("l2Book:" ++ coin) cb,
   [⟨"subscribe", ⟨"l2Book", some coin, none, none⟩⟩])

/-- unsubscribeFromCandles: the source body deletes the registry key and
logs; no frame of any kind is sent over the socket. -/
def unsubscribeFromCandles (coin interval : String)
    (subscriptions : Registry) : Registry × List SubscriptionRequest :=
  (mapDelete subscriptions ("candle:" ++ coin ++ ":" ++ interval), [])

/-- unsubscribeFromTrades: deletes the registry key; no frame is sent. -/
def unsubscribeFromTrades (coin : String)
    (subscriptions : Registry) : Registry × List SubscriptionRequest :=
  (mapDelete subscriptions ("trades:" ++ coin), [])

/-- unsubscribeFromOrderBook: deletes the registry key; no frame is sent. -/
def unsubscribeFromOrderBook (coin : String)
    (subscriptions : Registry) : Registry × List SubscriptionRequest :=
  (mapDelete subscriptions ("l2Book:" ++ coin), [])

/-- JS String.prototype.split with a single-character separator, by direct
recursion over the characters. -/
def splitAccum (sep : Char) : List Char → List Char → List String
  | [], acc => [String.mk acc.reverse]
  | ch :: cs, acc =>
    if ch = sep then
      String.mk acc.reverse :: splitAccum sep cs []
    else
      splitAccum sep cs (ch :: acc)

/-- key.split(sep) for one-character separators. -/
def jsSplit (s : String) (sep : Char) : List String :=
  splitAccum sep s.data []

/-- resubscribeAll: forEach over the registry; per entry
const [type, coin] = key.split(chr) takes elements 0 and 1, and for candle
keys const [_, interval] = key.split(chr) destructures element 1 again, so
the value passed as interval is the coin segment of the key.  Re-issues each
entry through the corresponding subscribe method, threading the registry and
accumulating the frames sent. -/
def resubscribeAll (subscriptions : Registry) :
    Registry × List SubscriptionRequest :=
  subscriptions.foldl
    (fun acc entry =>
      let parts := jsSplit entry.1 ':'
      let type := (parts.get? 0).getD ""
      let coin := (parts.get? 1).getD ""
      if type == "candle" then
        let interval := (parts.get? 1).getD ""
        let r := subscribeToCandles coin interval entry.2 acc.1
        (r.1, acc.2 ++ r.2)
      else if type == "trades" then
        let r := subscribeToTrades coin entry.2 acc.1
        (r.1, acc.2 ++ r.2)
      else if type == "l2Book" then
        let r := subscribeToOrderBook coin entry.2 acc.1
        (r.1, acc.2 ++ r.2)
      else
        acc)
    (subscriptions, [])

/-! Message router of src/services/hyperliquid-api.ts. -/

/-- Payload delivered to a callback by the router. -/
inductive Delivered
  | book (d : BookPayload)
  | trades (d : List TradePayload)
  | candle (d : Candle)
deriving DecidableEq, Repr

/-- Invocation of a registered callback: its id and the delivered payload. -/
abbrev Invocation := Nat × Delivered

/-- handleOrderBookUpdate: look up l2Book:coin and deliver the mapped
payload to the matching callback, if any. -/
def handleOrderBookUpdate (d : BookPayload) (subscriptions : Registry) :
    List Invocation :=
  match mapGet? subscriptions ("l2Book:" ++ d.coin) with
  | some cb => [(cb, .book ⟨d.coin, d.bids, d.asks, d.time⟩)]
  | none => []

/-- Lookup key of handleTradeUpdate: trades:(data[0]?.coin).  For an empty
batch the optional access yields undefined and the template literal renders
the text undefined into the key. -/
def tradesKey (d : List TradePayload) : String :=
  "trades:" ++ (match d.head? with
    | some t => t.coin
    | none => "undefined")

/-- handleTradeUpdate: map the batch field by field, then deliver the whole
mapped array to the callback found under the key derived from the first
element, if any. -/
def handleTradeUpdate (d : List TradePayload) (subscriptions : Registry) :
    List Invocation :=
  let mappedData := d.map (fun t =>
    (⟨t.coin, t.side, t.px, t.sz, t.time, t.hash, t.tid, t.users⟩ :
      TradePayload))
  match mapGet? subscriptions (tradesKey d) with
  | some cb => [(cb, .trades mappedData)]
  | none => []

/-- Lookup key of handleCandleUpdate: candle:(data.s):(data.interval or the
literal 1m when the field is absent). -/
def candleKey (d : CandlePayload) : String :=
  "candle:" ++ d.s ++ ":" ++ d.interval.getD "1m"

/-- Mapped candle built by handleCandleUpdate (fields T c h l o s t v n). -/
def mapCandle (d : CandlePayload) : Candle :=
  ⟨d.T, d.c, d.h, d.l, d.n, d.o, d.s, d.t, d.v⟩

/-- handleCandleUpdate: deliver the mapped candle to the callback found
under candleKey, if any. -/
def handleCandleUpdate (d : CandlePayload) (subscriptions : Registry) :
    List Invocation :=
  match mapGet? subscriptions (candleKey d) with
  | some cb => [(cb, .candle (mapCandle d))]
  | none => []

/-- Parsed inbound frame {channel, data}, with the data shapes the three
handlers read; subscriptionResponse is acknowledged and discarded, any other
channel falls through the dispatch chain. -/
inductive WSMessage
  | subscriptionResponse
  | l2Book (d : BookPayload)
  | trades (d : List TradePayload)
  | candle (d : CandlePayload)
  | other (channel : String)
deriving Repr

/-- handleWebSocketMessage: dispatch on the channel discriminator. -/
def handleWebSocketMessage (m : WSMessage) (subscriptions : Registry) :
    List Invocation :=
  match m with
  | .subscriptionResponse => []
  | .l2Book d => handleOrderBookUpdate d subscriptions
  | .trades d => handleTradeUpdate d subscriptions
  | .candle d => handleCandleUpdate d subscriptions
  | .other _ => []

/-! Connection lifecycle of src/services/hyperliquid-api.ts. -/

/-- WebSocket readyState constants. -/
inductive ReadyState
  | CONNECTING
  | OPEN
  | CLOSING
  | CLOSED
deriving DecidableEq, Repr

/-- Connection-facing fields of the client: this.ws, modelled as the
identity and readyState of the held socket (none when this.ws is null),
plus a counter supplying a fresh identity per socket construction. -/
structure ConnState where
  nextId : Nat
  ws : Option (Nat × ReadyState)
deriving DecidableEq, Repr

/-- connectWebSocket: this.ws = new WebSocket(this.wsUrl) — unconditionally
constructs a fresh socket, initially CONNECTING, and stores it in this.ws.
The second component counts the sockets constructed by the call. -/
def connectWebSocket (st : ConnState) : ConnState × Nat :=
  (⟨st.nextId + 1, some (st.nextId, .CONNECTING)⟩, 1)

/-- ensureWebSocketConnection: if (not this.ws or readyState is not OPEN)
then connectWebSocket(); a held socket avoids reconnection only when its
readyState equals OPEN. -/
def ensureWebSocketConnection (st : ConnState) : ConnState × Nat :=
  match st.ws with
  | some (_, .OPEN) => (st, 0)
  | _ => connectWebSocket st

/-! Reconnection controller of src/services/hyperliquid-api.ts. -/

/-- maxReconnectAttempts field. -/
def maxReconnectAttempts : Nat := 5

/-- reconnectDelay field, in milliseconds. -/
def reconnectDelay : Nat := 1000

/-- Counter owned by the reconnection controller. -/
structure ReconnectState where
  reconnectAttempts : Nat
deriving DecidableEq, Repr

/-- Observable actions of attemptReconnect: a console.error line, or a
setTimeout scheduling the next connection attempt after the given delay. -/
inductive Effect
  | logError (msg : String)
  | scheduleReconnect (delayMs : Nat)
deriving DecidableEq, Repr

/-- Classification of effects visible to callers across the Facade boundary
(section 7 of the spec): console logging stays internal, and an internal
setTimeout is equally invisible to callers; attemptReconnect performs no
other action in its terminal branch. -/
def facadeObservable : Effect → Bool
  | .logError _ => false
  | .scheduleReconnect _ => false

/-- attemptReconnect: when reconnectAttempts has reached
maxReconnectAttempts, log the terminal console.error and return without
scheduling; otherwise increment the counter and schedule the next attempt
after reconnectDelay * reconnectAttempts milliseconds. -/
def attemptReconnect (st : ReconnectState) : ReconnectState × List Effect :=
  if st.reconnectAttempts ≥ maxReconnectAttempts then
    (st, [.logError "Max reconnection attempts reached"])
  else
    let n := st.reconnectAttempts + 1
    (⟨n⟩, [.scheduleReconnect (reconnectDelay * n)])

/-! Inbound frame entry point. -/

/-- Full mutable state of the client relevant to inbound frames. -/
structure ClientState where
  conn : ConnState
  subscriptions : Registry
  reconnect : ReconnectState
deriving Repr

/-- ws.onmessage: JSON.parse inside try/catch, then handleWebSocketMessage.
The parse outcome of event.data is passed as an Option: none models a frame
whose data is not parseable as JSON, in which case the catch branch only
logs.  The handlers read the registry and never write any state. -/
def onMessage (parsed : Option WSMessage) (st : ClientState) :
    ClientState × List Invocation :=
  match parsed with
  | none => (st, [])
  | some m => (st, handleWebSocketMessage m st.subscriptions)

/-! Theorems. -/

theorem string_append_cancel_left {a b c : String} (h : a ++ b = a ++ c) :
    b = c := by
  have hd := congrArg String.data h
  simp only [String.data_append] at hd
  have hbc := List.append_cancel_left hd
  cases b
  cases c
  exact congrArg String.mk hbc

/-- C1 (code_bug): resubscribeAll destructures the interval of a candle key
as element 1 of key.split, which is the coin segment; subscribeToCandles
then rejects that value as an unsupported interval and sends nothing.  A
registry of three entries containing one candle subscription yields two
subscribe frames instead of three, and the candle registry entry yields no
frame at all, so resubscription is not one frame per registry entry. -/
theorem resubscribeAll_drops_candle_entries :
    (resubscribeAll
        [("l2Book:BTC", 1), ("trades:ETH", 2), ("candle:BTC:5m", 3)]).2 =
      [⟨"subscribe", ⟨"l2Book", some "BTC", none, none⟩⟩,
       ⟨"subscribe", ⟨"trades", some "ETH", none, none⟩⟩] ∧
    (resubscribeAll
        [("l2Book:BTC", 1), ("trades:ETH", 2), ("candle:BTC:5m", 3)]).2.length
      ≠ 3 ∧
    (resubscribeAll [("candle:BTC:5m", 3)]).2 = [] ∧
    (jsSplit "candle:BTC:5m" ':').get? 1 = some "BTC" := by
  decide

/-- C2 (code_bug): each unsubscribe method removes the matching registry key
and is a no-op for a never-subscribed key, but it sends no unsubscribe frame
over the WebSocket (its body is a registry delete plus a log, while the
repository's own tests expect a method unsubscribe frame to be sent). -/
theorem unsubscribe_removes_key_sends_no_frame :
    unsubscribeFromTrades "BTC" [("trades:BTC", 1)] = ([], []) ∧
    unsubscribeFromCandles "BTC" "1m"
        [("candle:BTC:1m", 2), ("trades:BTC", 1)] = ([("trades:BTC", 1)], []) ∧
    unsubscribeFromOrderBook "BTC" [("l2Book:BTC", 5)] = ([], []) ∧
    unsubscribeFromTrades "ETH" [("trades:BTC", 1)] =
      ([("trades:BTC", 1)], []) := by
  decide

/-- C4 counterexample: with a held socket in the CONNECTING state,
ensureWebSocketConnection constructs a new WebSocket and replaces the
connecting socket, instead of being a no-op as the claim states. -/
theorem ensureWebSocketConnection_connecting_counterexample :
    (ensureWebSocketConnection ⟨1, some (0, .CONNECTING)⟩).2 = 1 ∧
    (ensureWebSocketConnection ⟨1, some (0, .CONNECTING)⟩).1.ws ≠
      some (0, .CONNECTING) ∧
    ensureWebSocketConnection ⟨1, some (0, .CONNECTING)⟩ ≠
      (⟨1, some (0, .CONNECTING)⟩, 0) := by
  decide

/-- C4 amended: ensureWebSocketConnection is a no-op exactly when the held
socket is OPEN; when the socket is CONNECTING (or absent) it constructs a
fresh WebSocket, replacing the held one, so concurrent subscribe calls
issued before a prior connect resolves can create additional sockets. -/
theorem ensureWebSocketConnection_noop_iff_open (st : ConnState) :
    (∀ id, st.ws = some (id, .OPEN) → ensureWebSocketConnection st = (st, 0)) ∧
    (∀ id, st.ws = some (id, .CONNECTING) →
      (ensureWebSocketConnection st).2 = 1 ∧
      (ensureWebSocketConnection st).1.ws = some (st.nextId, .CONNECTING)) ∧
    (st.ws = none → (ensureWebSocketConnection st).2 = 1 ∧
      (ensureWebSocketConnection st).1.ws = some (st.nextId, .CONNECTING)) := by
  refine ⟨fun id h => ?_, fun id h => ?_, fun h => ?_⟩ <;>
    simp [ensureWebSocketConnection, connectWebSocket, h]

/-- C4 witness: a concrete CONNECTING socket is replaced by a fresh one. -/
theorem ensureWebSocketConnection_noop_iff_open_witness :
    (ensureWebSocketConnection ⟨1, some (0, .CONNECTING)⟩).2 = 1 ∧
    (ensureWebSocketConnection ⟨1, some (0, .CONNECTING)⟩).1.ws =
      some (1, .CONNECTING) :=
  (ensureWebSocketConnection_noop_iff_open ⟨1, some (0, .CONNECTING)⟩).2.1 0 rfl

/-- C5 counterexample: once the attempt counter has reached
maxReconnectAttempts, attemptReconnect schedules nothing further, but the
terminal failure is reported only through console.error: the number of
effects observable by callers across the Facade boundary is zero, not
exactly one as the claim states. -/
theorem terminal_failure_not_observable_counterexample :
    (attemptReconnect ⟨5⟩).2 =
      [.logError "Max reconnection attempts reached"] ∧
    (attemptReconnect ⟨5⟩).2.countP facadeObservable = 0 ∧
    ¬ (attemptReconnect ⟨5⟩).2.countP facadeObservable = 1 := by
  decide

/-- C5 amended: after maxReconnectAttempts consecutive failures no further
reconnect attempt is scheduled, and the terminal failure is only logged via
console.error — no failure signal observable across the Facade boundary is
emitted. -/
theorem attemptReconnect_terminal_spec (st : ReconnectState)
    (h : maxReconnectAttempts ≤ st.reconnectAttempts) :
    attemptReconnect st = (st, [.logError "Max reconnection attempts reached"]) ∧
    (∀ e ∈ (attemptReconnect st).2, ∀ d, e ≠ Effect.scheduleReconnect d) ∧
    (attemptReconnect st).2.countP facadeObservable = 0 := by
  have hge : st.reconnectAttempts ≥ maxReconnectAttempts := h
  refine ⟨?_, ?_, ?_⟩ <;>
    simp [attemptReconnect, hge, facadeObservable, List.countP_cons]

/-- C5 witness: the terminal branch at five consumed attempts. -/
theorem attemptReconnect_terminal_spec_witness :
    attemptReconnect ⟨5⟩ =
      (⟨5⟩, [.logError "Max reconnection attempts reached"]) ∧
    (attemptReconnect ⟨5⟩).2.countP facadeObservable = 0 :=
  have h := attemptReconnect_terminal_spec ⟨5⟩ (by decide)
  ⟨h.1, h.2.2⟩

/-- C6 (confirmed): an inbound frame whose data is not parseable as JSON is
caught, only logged, and dropped: the handler returns normally, invokes no
registered callback, and every component of the client state — socket,
registry, reconnect counter — is left unchanged (indeed no inbound frame of
any shape mutates the state). -/
theorem onMessage_malformed_frame_safe (st : ClientState) :
    (∀ p, (onMessage p st).1 = st) ∧
    onMessage none st = (st, []) := by
  refine ⟨fun p => ?_, rfl⟩
  cases p <;> rfl

/-- C9 (confirmed): the delay scheduled before reconnect attempt n is
reconnectDelay * n (1000 ms times n) for 1 ≤ n ≤ maxReconnectAttempts, so
it grows strictly monotonically with n and never exceeds
reconnectDelay * maxReconnectAttempts. -/
theorem reconnect_backoff_linear (n : Nat) (h1 : 1 ≤ n)
    (h2 : n ≤ maxReconnectAttempts) :
    attemptReconnect ⟨n - 1⟩ =
      (⟨n⟩, [.scheduleReconnect (reconnectDelay * n)]) ∧
    reconnectDelay * n ≤ reconnectDelay * maxReconnectAttempts ∧
    (∀ m, n < m → reconnectDelay * n < reconnectDelay * m) := by
  refine ⟨?_, ?_, fun m hm => ?_⟩
  · have hlt : ¬ (n - 1 ≥ maxReconnectAttempts) := by
      simp only [maxReconnectAttempts] at h2 ⊢
      omega
    have hn : n - 1 + 1 = n := by omega
    simp [attemptReconnect, hlt, hn]
  · exact Nat.mul_le_mul_left _ h2
  · simp only [reconnectDelay]
    omega

/-- C9 witness: the third attempt is scheduled after 3000 ms. -/
theorem reconnect_backoff_linear_witness :
    attemptReconnect ⟨2⟩ = (⟨3⟩, [.scheduleReconnect 3000]) ∧
    reconnectDelay * 3 ≤ reconnectDelay * maxReconnectAttempts :=
  have h := reconnect_backoff_linear 3 (by decide) (by decide)
  ⟨h.1, h.2.1⟩

/-- C3 counterexample: an inbound candle payload of the declared Candle wire
type (which carries no interval field) for coin ETH is not delivered to the
callback registered under the candle ETH 5m key: the router looks up the
1m-defaulted key and invokes nothing, so a subscriber registered for an
interval other than 1m does not receive the updates for its own interval. -/
theorem candle_routing_interval_counterexample :
    handleCandleUpdate ⟨0, "", "", "", "", "ETH", 0, "", 0, none⟩
      [("candle:ETH:5m", 7)] = [] ∧
    handleCandleUpdate ⟨0, "", "", "", "", "ETH", 0, "", 0, none⟩
        [("candle:ETH:5m", 7)] ≠
      [(7, .candle (mapCandle ⟨0, "", "", "", "", "ETH", 0, "", 0, none⟩))] := by
  decide

/-- C3 amended: the router builds the lookup key from the channel
discriminator, the payload symbol s, and data.interval when that dynamic
field is present, defaulting to the literal 1m otherwise; since the declared
Candle payload type embeds no interval field, such payloads are dispatched
only to the (candle, symbol, 1m) registry entry, and a callback registered
under any other interval for the same symbol is never invoked for them. -/
theorem handleCandleUpdate_defaults_interval (d : CandlePayload) (cb : Nat)
    (iv : String) (h1 : d.interval = none) (h2 : iv ≠ "1m") :
    candleKey d = "candle:" ++ d.s ++ ":" ++ "1m" ∧
    handleCandleUpdate d [("candle:" ++ d.s ++ ":" ++ iv, cb)] = [] ∧
    handleCandleUpdate d [("candle:" ++ d.s ++ ":" ++ "1m", cb)] =
      [(cb, .candle (mapCandle d))] := by
  have hkey : candleKey d = "candle:" ++ d.s ++ ":" ++ "1m" := by
    simp [candleKey, h1]
  refine ⟨hkey, ?_, ?_⟩
  · have hne : ("candle:" ++ d.s ++ ":" ++ iv) ≠
        ("candle:" ++ d.s ++ ":" ++ "1m") := by
      intro heq
      exact h2 (string_append_cancel_left heq)
    have hbeq : (("candle:" ++ d.s ++ ":" ++ iv) ==
        ("candle:" ++ d.s ++ ":" ++ "1m")) = false := by
      simpa using hne
    simp [handleCandleUpdate, mapGet?, hkey, List.find?, hbeq]
  · simp [handleCandleUpdate, mapGet?, hkey, List.find?]

/-- C3 witness: a payload without the dynamic interval field, a subscriber
at 5m receiving nothing, and the 1m subscriber receiving the candle. -/
theorem handleCandleUpdate_defaults_interval_witness :
    handleCandleUpdate ⟨1, "2", "3", "1", "1", "BTC", 0, "9", 4, none⟩
      [("candle:" ++ "BTC" ++ ":" ++ "5m", 7)] = [] ∧
    handleCandleUpdate ⟨1, "2", "3", "1", "1", "BTC", 0, "9", 4, none⟩
      [("candle:" ++ "BTC" ++ ":" ++ "1m", 7)] =
      [(7, .candle (mapCandle ⟨1, "2", "3", "1", "1", "BTC", 0, "9", 4, none⟩))] :=
  have h := handleCandleUpdate_defaults_interval
    ⟨1, "2", "3", "1", "1", "BTC", 0, "9", 4, none⟩ 7 "5m" rfl (by decide)
  ⟨h.2.1, h.2.2⟩

/-- C10 counterexample: for an empty trades batch the lookup key renders the
undefined first element as the text undefined, so a callback registered by
subscribing to a coin literally named undefined is invoked with the empty
mapped batch — the claim that no registered callback is invoked regardless
of which trades subscriptions are registered fails. -/
theorem handleTradeUpdate_empty_batch_counterexample :
    handleTradeUpdate [] [("trades:undefined", 4)] = [(4, .trades [])] ∧
    handleTradeUpdate [] [("trades:undefined", 4)] ≠ [] := by
  decide

/-- C10 amended: for an empty trades batch the handler does not throw and
derives the lookup key trades:undefined from the undefined optional access
on the first element; it invokes no callback unless the registry holds an
entry under that literal key (a subscription for a coin named undefined),
in which case that callback alone receives the empty mapped batch; a
subscription for any other coin is never invoked by an empty batch. -/
theorem handleTradeUpdate_empty_batch_spec (reg : Registry) :
    tradesKey [] = "trades:undefined" ∧
    (mapGet? reg "trades:undefined" = none → handleTradeUpdate [] reg = []) ∧
    (∀ cb, mapGet? reg "trades:undefined" = some cb →
      handleTradeUpdate [] reg = [(cb, .trades [])]) ∧
    (∀ coin cb, coin ≠ "undefined" →
      handleTradeUpdate [] [("trades:" ++ coin, cb)] = []) := by
  have hkey : tradesKey [] = "trades:undefined" := rfl
  refine ⟨hkey, fun h => ?_, fun cb h => ?_, fun coin cb hne => ?_⟩
  · simp [handleTradeUpdate, hkey, h]
  · simp [handleTradeUpdate, hkey, h]
  · have hkne : ("trades:" ++ coin) ≠ "trades:undefined" := by
      intro heq
      refine hne (string_append_cancel_left (a := "trades:") ?_)
      exact heq
    have hbeq : (("trades:" ++ coin) == "trades:undefined") = false := by
      simpa using hkne
    simp [handleTradeUpdate, hkey, mapGet?, List.find?, hbeq]

/-- C10 witness: an empty batch delivered to the undefined-coin subscriber
and dropped for a BTC subscriber. -/
theorem handleTradeUpdate_empty_batch_spec_witness :
    handleTradeUpdate [] [("trades:undefined", 4)] = [(4, .trades [])] ∧
    handleTradeUpdate [] [("trades:" ++ "BTC", 9)] = [] :=
  ⟨(handleTradeUpdate_empty_batch_spec [("trades:undefined", 4)]).2.2.1 4
      (by decide),
   (handleTradeUpdate_empty_batch_spec [("trades:" ++ "BTC", 9)]).2.2.2 "BTC" 9
      (by decide)⟩

theorem addTrade_eq_take (t : Trade) (b : List Trade) :
    addTrade t b = (t :: b).take 100 :=
  rfl

theorem take_append_take {α : Type} (u v : List α) (n : Nat) :
    (u ++ v.take n).take n = (u ++ v).take n := by
  rw [List.take_append_eq_append_take, List.take_append_eq_append_take,
    List.take_take, Nat.min_eq_left (Nat.sub_le _ _)]

theorem insertAllTrades_eq (ts : List Trade) :
    ∀ b : List Trade, b.length ≤ 100 →
      insertAllTrades ts b = (ts.reverse ++ b).take 100 := by
  induction ts with
  | nil =>
    intro b hb
    simp [insertAllTrades, List.take_of_length_le hb]
  | cons x ts ih =>
    intro b hb
    have hstep : insertAllTrades (x :: ts) b = insertAllTrades ts (addTrade x b) := by
      simp [insertAllTrades]
    have hlen : (addTrade x b).length ≤ 100 := by
      rw [addTrade_eq_take]
      simp only [List.length_take, List.length_cons]
      omega
    rw [hstep, ih (addTrade x b) hlen, addTrade_eq_take, take_append_take]
    simp [List.append_assoc]

/-- C8 (confirmed): addTrade prepends the new trade and keeps only the first
100 entries (slice(0, 99) of the previous buffer after the new head), so the
buffer is newest-first and truncated from the tail; inserting 101 trades
sequentially into an empty buffer leaves exactly the 100 most recent ones in
reverse insertion order, the oldest evicted. -/
theorem addTrade_spec (t : Trade) (b : List Trade) (hb : b.length ≤ 100) :
    addTrade t b = (t :: b).take 100 ∧
    (addTrade t b).head? = some t ∧
    (addTrade t b).length = min (b.length + 1) 100 ∧
    (∀ f : Nat → Trade,
      insertAllTrades ((List.range 101).map f) [] =
        ((List.range 101).reverse.take 100).map f ∧
      (insertAllTrades ((List.range 101).map f) []).length = 100) := by
  refine ⟨addTrade_eq_take t b, rfl, ?_, fun f => ?_⟩
  · rw [addTrade_eq_take]
    simp only [List.length_take, List.length_cons]
    omega
  · have h1 : insertAllTrades ((List.range 101).map f) [] =
        (((List.range 101).map f).reverse ++ []).take 100 :=
      insertAllTrades_eq ((List.range 101).map f) [] (by simp)
    have h2 : insertAllTrades ((List.range 101).map f) [] =
        ((List.range 101).reverse.take 100).map f := by
      rw [h1]
      simp [← List.map_reverse, List.map_take]
    refine ⟨h2, ?_⟩
    rw [h2]
    simp

/-- C8 witness: one concrete insertion and the 101-trade cap. -/
theorem addTrade_spec_witness :
    addTrade ⟨"BTC", "B", "1", "1", 0, "h0"⟩ [] =
      [⟨"BTC", "B", "1", "1", 0, "h0"⟩] ∧
    (insertAllTrades
        ((List.range 101).map fun _ => ⟨"BTC", "B", "1", "1", 0, "h0"⟩)
        []).length = 100 :=
  have h := addTrade_spec ⟨"BTC", "B", "1", "1", 0, "h0"⟩ [] (by decide)
  ⟨h.1.trans rfl, (h.2.2.2 fun _ => ⟨"BTC", "B", "1", "1", 0, "h0"⟩).2⟩

/-- Concrete candle with the given open time, for the merge examples. -/
def candleAt (t : Nat) : Candle :=
  ⟨t + 60000, "2", "3", "1", 5, "1", "BTC", t, "10"⟩

/-- Replacement candle: same open time as candleAt 200, different OHLC. -/
def redCandle : Candle :=
  { candleAt 200 with c := "999", o := "7" }

theorem candleLe_trans :
    ∀ a b c : Candle, candleLe a b → candleLe b c → candleLe a c := by
  intro a b c hab hbc
  simp only [candleLe, decide_eq_true_eq] at *
  omega

theorem candleLe_total : ∀ a b : Candle, candleLe a b || candleLe b a := by
  intro a b
  simp only [candleLe, Bool.or_eq_true, decide_eq_true_eq]
  omega

theorem addCandle_findIdx_none (c : Candle) (l : List Candle)
    (h : l.findIdx? (fun x => x.t == c.t) = none) :
    addCandle c l = (l ++ [c]).mergeSort candleLe := by
  simp [addCandle, h]

theorem addCandle_perm (c : Candle) (l : List Candle)
    (h : l.findIdx? (fun x => x.t == c.t) = none) :
    (addCandle c l).Perm (c :: l) := by
  rw [addCandle_findIdx_none c l h]
  exact (List.mergeSort_perm _ _).trans (List.perm_append_singleton _ _)

theorem addCandle_pairwise_lt (c : Candle) (l : List Candle)
    (hs : l.Pairwise fun a b => a.t < b.t)
    (h : l.findIdx? (fun x => x.t == c.t) = none) :
    (addCandle c l).Pairwise fun a b => a.t < b.t := by
  have hle : (addCandle c l).Pairwise fun a b => candleLe a b = true := by
    rw [addCandle_findIdx_none c l h]
    exact List.sorted_mergeSort candleLe_trans candleLe_total (l ++ [c])
  have hnotin : ∀ x ∈ l, x.t ≠ c.t := by
    intro x hx
    have hfalse := List.findIdx?_eq_none_iff.mp h x hx
    simpa using hfalse
  have hconsne : (c :: l).Pairwise fun a b => a.t ≠ b.t := by
    refine List.pairwise_cons.mpr ⟨fun x hx => (hnotin x hx).symm, ?_⟩
    exact hs.imp Nat.ne_of_lt
  have hne : (addCandle c l).Pairwise fun a b => a.t ≠ b.t :=
    ((addCandle_perm c l h).pairwise_iff fun hxy => hxy.symm).mpr hconsne
  exact (hle.and hne).imp fun hab =>
    Nat.lt_of_le_of_ne (by simpa [candleLe] using hab.1) hab.2

theorem addCandle_eq_of_sorted (c : Candle) (l e : List Candle)
    (hs : l.Pairwise fun a b => a.t < b.t)
    (hn : l.findIdx? (fun x => x.t == c.t) = none)
    (hperm : List.Perm (c :: l) e)
    (he : e.Pairwise fun a b => a.t < b.t) :
    addCandle c l = e := by
  haveI : IsAntisymm Candle fun a b => a.t < b.t :=
    ⟨fun a b h1 h2 => absurd (Nat.lt_trans h1 h2) (Nat.lt_irrefl _)⟩
  exact List.eq_of_perm_of_sorted ((addCandle_perm c l hn).trans hperm)
    (addCandle_pairwise_lt c l hs hn) he

theorem addCandle_chain :
    addCandle (candleAt 200)
        (addCandle (candleAt 300) (addCandle (candleAt 100) [])) =
      [candleAt 100, candleAt 200, candleAt 300] := by
  have s1 : addCandle (candleAt 100) [] = [candleAt 100] :=
    addCandle_eq_of_sorted _ _ _ (by decide) (by decide) (by decide) (by decide)
  have s2 : addCandle (candleAt 300) [candleAt 100] =
      [candleAt 100, candleAt 300] :=
    addCandle_eq_of_sorted _ _ _ (by decide) (by decide) (by decide) (by decide)
  have s3 : addCandle (candleAt 200) [candleAt 100, candleAt 300] =
      [candleAt 100, candleAt 200, candleAt 300] :=
    addCandle_eq_of_sorted _ _ _ (by decide) (by decide) (by decide) (by decide)
  rw [s1, s2, s3]

/-- C7 (confirmed): on a buffer sorted strictly ascending by open time t,
addCandle replaces in place the entry with equal t when one exists (same
length, replacement at the found index), and otherwise inserts the new
candle in ascending-sorted position (the result is again strictly sorted by
t and is a permutation of the new candle consed onto the buffer, one entry
longer); delivering open times 100, 300, 200 in that order yields the
sorted sequence 100, 200, 300, and a fourth candle with open time 200 and
different OHLC replaces index 1 in place, length unchanged. -/
theorem addCandle_spec (c : Candle) (l : List Candle)
    (hs : l.Pairwise fun a b => a.t < b.t) :
    (∀ i, l.findIdx? (fun x => x.t == c.t) = some i →
      addCandle c l = l.set i c ∧
      (addCandle c l).length = l.length ∧
      ∃ hi : i < l.length, (l.get ⟨i, hi⟩).t = c.t) ∧
    (l.findIdx? (fun x => x.t == c.t) = none →
      (addCandle c l).Pairwise (fun a b => a.t < b.t) ∧
      (addCandle c l).Perm (c :: l) ∧
      (addCandle c l).length = l.length + 1) ∧
    (addCandle (candleAt 200)
        (addCandle (candleAt 300) (addCandle (candleAt 100) [])) =
      [candleAt 100, candleAt 200, candleAt 300] ∧
     addCandle redCandle [candleAt 100, candleAt 200, candleAt 300] =
      [candleAt 100, redCandle, candleAt 300] ∧
     redCandle.t = 200 ∧ redCandle ≠ candleAt 200) := by
  refine ⟨fun i hi => ?_, fun hn => ?_, addCandle_chain, by decide, by decide,
    by decide⟩
  · have heq : addCandle c l = l.set i c := by simp [addCandle, hi]
    obtain ⟨hlt, hp, -⟩ := List.findIdx?_eq_some_iff_getElem.mp hi
    refine ⟨heq, by rw [heq]; simp, hlt, ?_⟩
    simpa [List.get_eq_getElem] using hp
  · refine ⟨addCandle_pairwise_lt c l hs hn, addCandle_perm c l hn, ?_⟩
    rw [(addCandle_perm c l hn).length_eq]
    simp

/-- C7 witness: out-of-order insertion of open time 200 between 100 and
300 on a concrete sorted buffer. -/
theorem addCandle_spec_witness :
    (addCandle (candleAt 200) [candleAt 100, candleAt 300]).Perm
      (candleAt 200 :: [candleAt 100, candleAt 300]) ∧
    (addCandle (candleAt 200) [candleAt 100, candleAt 300]).length = 3 :=
  have h := (addCandle_spec (candleAt 200) [candleAt 100, candleAt 300]
    (by decide)).2.1 (by decide)
  ⟨h.2.1, h.2.2⟩

end HL
